import Mathlib

/-
Shallow embedding of montepython/parser_mp.py (MontePython command-line
layer) and verification of the frozen claims about it.

The embedding mirrors the source file:
  * `set_default_subparser` : the pre-parse subcommand rewrite (lines 44-62);
  * `positive_int`, `existing_file` : the custom argparse type coercions
    (lines 67-104);
  * `runAux` / `infoAux` : the argparse token loops for the `run` and `info`
    subparsers, restricted to the flag schema declared in `create_parser`
    (lines 107-444); the optional MultiNest / CosmoHammer argument groups are
    absent because their modules are not importable in this repository
    snapshot, matching the ImportError branch of the source;
  * `validateRun` : the folder / parameter-file consistency checks performed
    by `parse` for the run subcommand (lines 473-519);
  * `parse` : the top-level entry point (lines 447-520).

Filesystem state (os.path.isfile / os.path.isdir / os.path.exists) is
modelled by an explicit `FileSystem` value.  Exceptions are modelled by the
`PyErr` error type of an `Except` result.  Warnings (warnings.warn) are
returned as a list of messages next to the parsed options.
-/

namespace MontePython

/-- Explicit model of the bits of filesystem state the source consults:
the set of paths for which os.path.isfile holds and the set of paths for
which os.path.isdir holds. -/
structure FileSystem where
  files : List String
  dirs : List String
deriving DecidableEq

/-- Boolean membership of a string in a list, written out so that all
evaluation is by structural recursion. -/
def strIn (x : String) : List String → Bool
  | [] => false
  | y :: ys => if x = y then true else strIn x ys

/-- Model of os.path.isfile: true only for a non-empty path recorded as a
file (os.path.isfile of the empty string is always False in Python). -/
abbrev FileSystem.isfile (fs : FileSystem) (p : String) : Prop :=
  p ≠ "" ∧ strIn p fs.files = true

/-- Model of os.path.isdir, analogous to `FileSystem.isfile`. -/
abbrev FileSystem.isdir (fs : FileSystem) (p : String) : Prop :=
  p ≠ "" ∧ strIn p fs.dirs = true

/-- Model of os.path.exists: a path exists when it is a file or a directory. -/
abbrev FileSystem.pexists (fs : FileSystem) (p : String) : Prop :=
  fs.isfile p ∨ fs.isdir p

/-- Errors raised by the modelled code: ArgumentTypeError from the custom
type coercions, io_mp.ConfigurationError from the overridden parser error
hook and from the validation in `parse`, IndexError from indexing an empty
argument list, and the SystemExit produced by the -h / --help / --version
short-circuits.  `outOfFuel` is a termination artifact of the token loops;
it is never produced when the loops are run with their token count as fuel,
since every step consumes at least one token. -/
inductive PyErr where
  | argumentTypeError (msg : String)
  | configurationError (msg : String)
  | indexError
  | systemExit
  | outOfFuel
deriving DecidableEq

deriving instance DecidableEq for Except

/-- Splits a character list at every occurrence of the character c, keeping
empty pieces, like the Python str.split with an explicit separator. -/
def splitCharAux (c : Char) : List Char → List Char → List (List Char)
  | [], acc => [acc.reverse]
  | x :: xs, acc =>
    if x = c then acc.reverse :: splitCharAux c xs [] else splitCharAux c xs (x :: acc)

/-- Python str.split(os.path.sep) for the POSIX separator, including the
behaviour on the empty string (a single empty piece). -/
def pySplitSep (s : String) : List String :=
  (splitCharAux '/' s.data []).map (fun l => ⟨l⟩)

/-- Python str.split(" "), used by `parse` on the custom_command string. -/
def splitSpaces (s : String) : List String :=
  (splitCharAux ' ' s.data []).map (fun l => ⟨l⟩)

/-- Python os.path.sep.join on a list of path pieces. -/
def sepJoin : List String → String
  | [] => ""
  | [x] => x
  | x :: y :: ys => x ++ "/" ++ sepJoin (y :: ys)

/-- True when the string starts with the POSIX path separator. -/
def headIsSlash (s : String) : Bool :=
  match s.data with
  | [] => false
  | c :: _ => c = '/'

/-- True when the string ends with the POSIX path separator. -/
def lastIsSlash (s : String) : Bool :=
  match s.data.getLast? with
  | none => false
  | some c => c = '/'

/-- Model of the POSIX os.path.join on two components: an absolute second
component replaces the first; otherwise the separator is added unless the
first component is empty or already ends with the separator. -/
def osPathJoin (a b : String) : String :=
  if headIsSlash b then b
  else if a = "" then b
  else if lastIsSlash a then a ++ b
  else a ++ "/" ++ b

/-- Characters stripped by Python int() before conversion. -/
def isPyWs (c : Char) : Bool :=
  c = ' ' || c = '\t' || c = '\n' || c = '\r'

/-- Numeric value of a digit list, most significant digit first. -/
def digitsToNat : List Char → Nat
  | [] => 0
  | c :: cs => digitsToNatAux (c :: cs) 0
where
  digitsToNatAux : List Char → Nat → Nat
  | [], acc => acc
  | c :: cs, acc => digitsToNatAux cs (10 * acc + (c.toNat - 48))

/-- Model of the Python built-in int() applied to a string: surrounding
whitespace is stripped, an optional single sign is allowed, and the rest
must be one or more decimal digits.  (Underscore digit grouping and
non-ASCII digits are not modelled; no claim depends on them.) -/
def pyInt (s : String) : Option Int :=
  let t := ((s.data.dropWhile isPyWs).reverse.dropWhile isPyWs).reverse
  match t with
  | '-' :: ds =>
    if (!ds.isEmpty) && ds.all Char.isDigit then some (-(digitsToNat ds : Int)) else none
  | '+' :: ds =>
    if (!ds.isEmpty) && ds.all Char.isDigit then some ((digitsToNat ds : Int)) else none
  | ds =>
    if (!ds.isEmpty) && ds.all Char.isDigit then some ((digitsToNat ds : Int)) else none

/-- Message of the ArgumentTypeError raised by positive_int. -/
def positiveIntMsg : String :=
  "You asked for a non-positive number of steps. I am not sure what to do, so I will exit."

/-- Message of the ArgumentTypeError raised by existing_file. -/
def existingFileMsg (f : String) : String :=
  "The file " ++ f ++ " does not exist"

/-- parser_mp.positive_int: convert with int(); a conversion failure or a
value less than or equal to zero raises ArgumentTypeError. -/
def positive_int (s : String) : Except PyErr Int :=
  match pyInt s with
  | some v => if v ≤ 0 then .error (.argumentTypeError positiveIntMsg) else .ok v
  | none => .error (.argumentTypeError positiveIntMsg)

/-- parser_mp.existing_file: return the name if os.path.isfile holds,
otherwise raise ArgumentTypeError. -/
def existing_file (fs : FileSystem) (fname : String) : Except PyErr String :=
  if fs.isfile fname then .ok fname else .error (.argumentTypeError (existingFileMsg fname))

/-- parser_mp.MpArgumentParser.set_default_subparser: when the given token
list is empty the process arguments (sys.argv[1:]) are used instead; the
head of the resulting list is then inspected:  a head among -h, --help,
--version is left alone, -info is rewritten in place to info, and any other
head that contains a hyphen gets the default subcommand inserted in front.
Indexing the head of an empty list raises IndexError, exactly as args[0]
does in Python. -/
def set_default_subparser (default : String) (args sysargv : List String) :
    Except PyErr (List String) :=
  let args := if args.isEmpty then sysargv else args
  match args with
  | [] => .error .indexError
  | a0 :: rest =>
    if a0 = "-h" ∨ a0 = "--help" ∨ a0 = "--version" ∨ a0 = "-info" then
      if a0 = "-info" then .ok ("info" :: rest) else .ok (a0 :: rest)
    else if a0.data.contains '-' then .ok (default :: a0 :: rest)
    else .ok (a0 :: rest)

/-- True for a token of the shape minus-digits, which argparse treats as a
negative number rather than an option (this subparser declares no options
that look like negative numbers). -/
def isNegNumber (s : String) : Bool :=
  match s.data with
  | '-' :: ds => (!ds.isEmpty) && ds.all Char.isDigit
  | _ => false

/-- argparse shape test for an option token: at least two characters, starts
with the option prefix, and does not look like a negative number. -/
def looksLikeOption (t : String) : Bool :=
  (match t.data with
   | '-' :: _ :: _ => true
   | _ => false) && !isNegNumber t

/-- Destination record for the run subparser, one field per dest declared in
create_parser, with the declared defaults.  The float -f value is kept as
its literal text (no claim involves float arithmetic); the two nargs lists
declared with the string default are modelled with the empty list as
default. -/
structure RunOpts where
  subparser_name : String
  N : Option Int := none
  folder : Option String := none
  param : Option String := none
  cov : Option String := none
  jumping : String := "global"
  method : String := "MH"
  jumping_factor : String := "2.4"
  config_file : String := "default.conf"
  chain_number : Option String := none
  restart : Option String := none
  bf : Option String := none
  silent : Bool := false
  Der_target_folder : String := ""
  derived_parameters : List String := []
  IS_starting_folder : List String := []
deriving DecidableEq

/-- Destination record for the info subparser, one field per dest declared
in create_parser, with the declared defaults; the three store_false actions
--no-mean, --noplot and --noplot-2d have default True on their dests
mean_likelihood, plot and plot_2d. -/
structure InfoOpts where
  subparser_name : String
  files : List String := []
  bins : Int := 20
  mean_likelihood : Bool := true
  optional_plot_file : String := ""
  plot : Bool := true
  plot_2d : Bool := true
  contours_only : Bool := false
  subplot : Bool := false
  extension : String := "pdf"
  fontsize : Int := 16
  ticksize : Int := 14
  line_width : Int := 4
  decimal : Int := 3
  ticknumber : Int := 3
  legend_style : String := "sides"
deriving DecidableEq

/-- Message used for the argparse unrecognized-token failure (the exact
wording is irrelevant to the claims; the error kind is what matters). -/
def unrecognizedMsg (t : String) : String :=
  "unrecognized arguments: " ++ t

/-- Message used when an option that needs a value has none. -/
def expectedArgMsg (t : String) : String :=
  "argument " ++ t ++ ": expected at least one argument"

/-- Message used for a value outside a declared choices set. -/
def invalidChoiceMsg (v : String) : String :=
  "invalid choice: " ++ v

/-- Message used for an int-typed info option with a non-integer value. -/
def invalidIntMsg (v : String) : String :=
  "invalid int value: " ++ v

/-- Message used for a float-typed run option with a non-float value. -/
def invalidFloatMsg (v : String) : String :=
  "invalid float value: " ++ v

/-- Message used when the info subparser never receives its required
files positional. -/
def filesRequiredMsg : String :=
  "too few arguments: files"

/-- Message used when the top-level token list carries no subcommand. -/
def tooFewMsg : String :=
  "too few arguments"

/-- Message of the internal fuel artifact, never produced with adequate fuel. -/
def fuelMsg : String :=
  "internal: fuel exhausted"

/-- The run flags that take exactly one value, as declared in create_parser. -/
abbrev isRunValueFlag (t : String) : Prop :=
  t = "-N" ∨ t = "-o" ∨ t = "--output" ∨ t = "-p" ∨ t = "--param" ∨
  t = "-c" ∨ t = "--covmat" ∨ t = "-j" ∨ t = "--jumping" ∨
  t = "-m" ∨ t = "--method" ∨ t = "-f" ∨ t = "--conf" ∨
  t = "--chain-number" ∨ t = "-r" ∨ t = "-b" ∨ t = "--bestfit" ∨
  t = "--Der-target-folder"

/-- Loose shape test for a Python float literal: optional sign, digits with
at most one decimal point (exponent notation is not modelled; no claim
touches the -f flag). -/
def pyFloatLike (s : String) : Bool :=
  let t := ((s.data.dropWhile isPyWs).reverse.dropWhile isPyWs).reverse
  let ds := match t with
    | '-' :: r => r
    | '+' :: r => r
    | r => r
  (!ds.isEmpty) && ds.any Char.isDigit &&
    ds.all (fun c => Char.isDigit c || c = '.') &&
    (ds.filter (fun c => c = '.')).length ≤ 1

/-- Dispatch kind of a single-value run flag, one constructor per dest. -/
inductive RunFlagKind where
  | nsteps
  | output
  | paramFile
  | covmat
  | jumping
  | method
  | factor
  | conf
  | chainNumber
  | restartChain
  | bestfit
  | derTarget
  | unknown
deriving DecidableEq

/-- Maps a run flag name to its dispatch kind, mirroring the option strings
declared in create_parser. -/
def runFlagKind (t : String) : RunFlagKind :=
  match t with
  | "-N" => .nsteps
  | "-o" | "--output" => .output
  | "-p" | "--param" => .paramFile
  | "-c" | "--covmat" => .covmat
  | "-j" | "--jumping" => .jumping
  | "-m" | "--method" => .method
  | "-f" => .factor
  | "--conf" => .conf
  | "--chain-number" => .chainNumber
  | "-r" => .restartChain
  | "-b" | "--bestfit" => .bestfit
  | "--Der-target-folder" => .derTarget
  | _ => .unknown

/-- Applies one single-value run flag to the destination record, performing
the type coercion or choices check declared for it in create_parser. -/
def applyRunFlag (fs : FileSystem) (t v : String) (o : RunOpts) : Except PyErr RunOpts :=
  match runFlagKind t with
  | .nsteps =>
    match positive_int v with
    | .error e => .error e
    | .ok n => .ok { o with N := some n }
  | .output => .ok { o with folder := some v }
  | .paramFile =>
    match existing_file fs v with
    | .error e => .error e
    | .ok p => .ok { o with param := some p }
  | .covmat =>
    match existing_file fs v with
    | .error e => .error e
    | .ok p => .ok { o with cov := some p }
  | .jumping =>
    if v = "global" ∨ v = "sequential" ∨ v = "fast" then .ok { o with jumping := v }
    else .error (.configurationError (invalidChoiceMsg v))
  | .method =>
    if v = "MH" ∨ v = "NS" ∨ v = "CH" ∨ v = "IS" ∨ v = "Der" then .ok { o with method := v }
    else .error (.configurationError (invalidChoiceMsg v))
  | .factor =>
    if pyFloatLike v then .ok { o with jumping_factor := v }
    else .error (.configurationError (invalidFloatMsg v))
  | .conf => .ok { o with config_file := v }
  | .chainNumber => .ok { o with chain_number := some v }
  | .restartChain =>
    match existing_file fs v with
    | .error e => .error e
    | .ok p => .ok { o with restart := some p }
  | .bestfit =>
    match existing_file fs v with
    | .error e => .error e
    | .ok p => .ok { o with bf := some p }
  | .derTarget => .ok { o with Der_target_folder := v }
  | .unknown => .error (.configurationError (unrecognizedMsg t))

/-- argparse token loop for the run subparser.  --silent is store_true;
--Der-param-list and --IS-starting-folder take one or more values (the
following maximal stretch of non-option tokens); every other declared flag
takes exactly one value, which must not look like an option; anything else
is an unrecognized token.  The fuel argument only drives structural
termination; `parseRunTokens` supplies the token count, which always
suffices because every step consumes at least one token. -/
def runAux (fs : FileSystem) : Nat → List String → RunOpts → Except PyErr RunOpts
  | _, [], o => .ok o
  | 0, _ :: _, _ => .error .outOfFuel
  | fuel + 1, t :: ts, o =>
    if t = "--silent" then runAux fs fuel ts { o with silent := true }
    else if t = "--Der-param-list" then
      if (ts.takeWhile (fun x => !looksLikeOption x)).isEmpty then
        .error (.configurationError (expectedArgMsg t))
      else
        runAux fs fuel (ts.dropWhile (fun x => !looksLikeOption x))
          { o with derived_parameters := ts.takeWhile (fun x => !looksLikeOption x) }
    else if t = "--IS-starting-folder" then
      if (ts.takeWhile (fun x => !looksLikeOption x)).isEmpty then
        .error (.configurationError (expectedArgMsg t))
      else
        runAux fs fuel (ts.dropWhile (fun x => !looksLikeOption x))
          { o with IS_starting_folder := ts.takeWhile (fun x => !looksLikeOption x) }
    else if isRunValueFlag t then
      match ts with
      | [] => .error (.configurationError (expectedArgMsg t))
      | v :: ts2 =>
        if looksLikeOption v then .error (.configurationError (expectedArgMsg t))
        else
          match applyRunFlag fs t v o with
          | .error e => .error e
          | .ok o2 => runAux fs fuel ts2 o2
    else .error (.configurationError (unrecognizedMsg t))

/-- Parses the token list following the run subcommand. -/
def parseRunTokens (fs : FileSystem) (ts : List String) (o : RunOpts) : Except PyErr RunOpts :=
  runAux fs ts.length ts o

/-- Dispatch kind of a single-value info flag, one constructor per dest. -/
inductive InfoFlagKind where
  | bins
  | extra
  | ext
  | fontsize
  | ticksize
  | lineWidth
  | decimal
  | ticknumber
  | legendStyle
  | unknown
deriving DecidableEq

/-- Maps an info flag name to its dispatch kind, mirroring the option
strings declared in create_parser. -/
def infoFlagKind (t : String) : InfoFlagKind :=
  match t with
  | "--bins" => .bins
  | "--extra" => .extra
  | "--ext" => .ext
  | "--fontsize" => .fontsize
  | "--ticksize" => .ticksize
  | "--line-width" => .lineWidth
  | "--decimal" => .decimal
  | "--ticknumber" => .ticknumber
  | "--legend-style" => .legendStyle
  | _ => .unknown

/-- Dispatch kind of the plain (store_true / store_false) info flags. -/
inductive InfoBoolKind where
  | noMean
  | noPlot
  | noPlot2d
  | contoursOnly
  | allFlag
  | notBool
deriving DecidableEq

/-- Maps an info token to the plain flag it names, if any, mirroring the
store_false and store_true actions declared in create_parser. -/
def infoBoolKind (t : String) : InfoBoolKind :=
  match t with
  | "--no-mean" => .noMean
  | "--noplot" => .noPlot
  | "--noplot-2d" => .noPlot2d
  | "--contours-only" => .contoursOnly
  | "--all" => .allFlag
  | _ => .notBool

/-- Applies one single-value info flag to the destination record. -/
def applyInfoFlag (t v : String) (o : InfoOpts) : Except PyErr InfoOpts :=
  match infoFlagKind t with
  | .bins =>
    match pyInt v with
    | some n => .ok { o with bins := n }
    | none => .error (.configurationError (invalidIntMsg v))
  | .extra => .ok { o with optional_plot_file := v }
  | .ext => .ok { o with extension := v }
  | .fontsize =>
    match pyInt v with
    | some n => .ok { o with fontsize := n }
    | none => .error (.configurationError (invalidIntMsg v))
  | .ticksize =>
    match pyInt v with
    | some n => .ok { o with ticksize := n }
    | none => .error (.configurationError (invalidIntMsg v))
  | .lineWidth =>
    match pyInt v with
    | some n => .ok { o with line_width := n }
    | none => .error (.configurationError (invalidIntMsg v))
  | .decimal =>
    match pyInt v with
    | some n => .ok { o with decimal := n }
    | none => .error (.configurationError (invalidIntMsg v))
  | .ticknumber =>
    match pyInt v with
    | some n => .ok { o with ticknumber := n }
    | none => .error (.configurationError (invalidIntMsg v))
  | .legendStyle =>
    if v = "sides" ∨ v = "top" then .ok { o with legend_style := v }
    else .error (.configurationError (invalidChoiceMsg v))
  | .unknown => .error (.configurationError (unrecognizedMsg t))

/-- The info flags that take exactly one value, as declared in create_parser. -/
abbrev isInfoValueFlag (t : String) : Prop :=
  t = "--bins" ∨ t = "--extra" ∨ t = "--ext" ∨ t = "--fontsize" ∨
  t = "--ticksize" ∨ t = "--line-width" ∨ t = "--decimal" ∨
  t = "--ticknumber" ∨ t = "--legend-style"

/-- argparse token loop for the info subparser.  The five plain flags carry
store_false or store_true actions; the value flags take one value; the
required files positional consumes the first maximal stretch of non-option
tokens, exactly once; a later bare token is unrecognized, and reaching the
end without a files stretch fails because the positional is required.
The fuel argument is the same termination artifact as in `runAux`. -/
def infoAux : Nat → List String → InfoOpts → Bool → Except PyErr InfoOpts
  | _, [], o, filesSet =>
    if filesSet then .ok o else .error (.configurationError filesRequiredMsg)
  | 0, _ :: _, _, _ => .error .outOfFuel
  | fuel + 1, t :: ts, o, filesSet =>
    match infoBoolKind t with
    | .noMean => infoAux fuel ts { o with mean_likelihood := false } filesSet
    | .noPlot => infoAux fuel ts { o with plot := false } filesSet
    | .noPlot2d => infoAux fuel ts { o with plot_2d := false } filesSet
    | .contoursOnly => infoAux fuel ts { o with contours_only := true } filesSet
    | .allFlag => infoAux fuel ts { o with subplot := true } filesSet
    | .notBool =>
      if isInfoValueFlag t then
        match ts with
        | [] => .error (.configurationError (expectedArgMsg t))
        | v :: ts2 =>
          if looksLikeOption v then .error (.configurationError (expectedArgMsg t))
          else
            match applyInfoFlag t v o with
            | .error e => .error e
            | .ok o2 => infoAux fuel ts2 o2 filesSet
      else if looksLikeOption t then .error (.configurationError (unrecognizedMsg t))
      else if filesSet then .error (.configurationError (unrecognizedMsg t))
      else
        infoAux fuel (ts.dropWhile (fun x => !looksLikeOption x))
          { o with files := t :: ts.takeWhile (fun x => !looksLikeOption x) } true

/-- Parses the token list following the info subcommand. -/
def parseInfoTokens (ts : List String) (o : InfoOpts) (filesSet : Bool) :
    Except PyErr InfoOpts :=
  infoAux ts.length ts o filesSet

/-- The parsed options: the argparse namespace restricted to whichever
subparser was selected (dest subparser_name). -/
inductive Options where
  | run (o : RunOpts)
  | info (o : InfoOpts)
deriving DecidableEq

/-- The subparser_name dest of the parsed options. -/
def Options.subparserName : Options → String
  | .run o => o.subparser_name
  | .info o => o.subparser_name

/-- Top-level argparse dispatch after the subcommand rewrite: -h, --help and
--version short-circuit (SystemExit), run and info dispatch to their
subparser loops, and any other leading token is an invalid choice, which the
overridden error hook surfaces as ConfigurationError. -/
def parseTokens (fs : FileSystem) : List String → Except PyErr Options
  | [] => .error (.configurationError tooFewMsg)
  | t :: ts =>
    if t = "-h" ∨ t = "--help" ∨ t = "--version" then .error .systemExit
    else if t = "run" then
      match parseRunTokens fs ts { subparser_name := "run" } with
      | .error e => .error e
      | .ok o => .ok (.run o)
    else if t = "info" then
      match parseInfoTokens ts { subparser_name := "info" } false with
      | .error e => .error e
      | .ok o => .ok (.info o)
    else .error (.configurationError (invalidChoiceMsg t))

/-- parser_mp.MpArgumentParser.safe_parse_args: apply the default-subparser
rewrite, then parse. -/
def safe_parse_args (fs : FileSystem) (args sysargv : List String) : Except PyErr Options :=
  match set_default_subparser "run" args sysargv with
  | .error e => .error e
  | .ok args2 => parseTokens fs args2

/-- Warning emitted when a restart chain file imposes its log.param. -/
def restartWarningMsg (r : String) : String :=
  "Restarting from " ++ r ++ ". Using associated log.param."

/-- ConfigurationError message for a run without an output folder. -/
def dirtyFolderMsg : String :=
  "You must provide an output folder, because you do not want your main folder to look dirty, do you ?"

/-- Warning emitted when an existing log.param overrides a supplied
parameter file. -/
def appendingMsg (old : String) : String :=
  "Appending to an existing folder: using the log.param instead of " ++ old

/-- ConfigurationError message for an existing output folder without
log.param and without a supplied parameter file. -/
def emptyFolderMsg : String :=
  "The requested output folder seems empty. You must then provide a parameter file (command line option -p any.param)"

/-- ConfigurationError message for a non-existent output folder without a
supplied parameter file. -/
def nonExistentFolderMsg : String :=
  "The requested output folder appears to be non existent. You must then provide a parameter file (command line option -p any.param)"

/-- The run-subcommand validation of parser_mp.parse (lines 473-519):
a restart chain file forces folder and param from its own path with a
warning; otherwise an output folder is required; an existing folder with a
log.param forces param to it, warning when a parameter file had been
supplied; an existing folder without log.param, or a non-existent folder,
requires a supplied parameter file.  Returns the updated options together
with the warnings emitted. -/
def validateRun (fs : FileSystem) (o : RunOpts) : Except PyErr (RunOpts × List String) :=
  match o.restart with
  | some r =>
    .ok ({ o with
            folder := some (sepJoin (pySplitSep r).dropLast),
            param := some (osPathJoin (sepJoin (pySplitSep r).dropLast) "log.param") },
         [restartWarningMsg r])
  | none =>
    match o.folder with
    | none => .error (.configurationError dirtyFolderMsg)
    | some f =>
      if fs.isdir f then
        if fs.pexists (osPathJoin f "log.param") then
          match o.param with
          | some old =>
            .ok ({ o with param := some (osPathJoin f "log.param") }, [appendingMsg old])
          | none =>
            .ok ({ o with param := some (osPathJoin f "log.param") }, [])
        else
          match o.param with
          | none => .error (.configurationError emptyFolderMsg)
          | some _ => .ok (o, [])
      else
        match o.param with
        | none => .error (.configurationError nonExistentFolderMsg)
        | some _ => .ok (o, [])

/-- parser_mp.parse: split the custom command (an empty custom command means
the process arguments are used), run safe_parse_args, then apply the run
validation.  Returns the parsed options and the warnings emitted. -/
def parse (fs : FileSystem) (custom_command : String) (sysargv : List String) :
    Except PyErr (Options × List String) :=
  let tokens := if custom_command = "" then [] else splitSpaces custom_command
  match safe_parse_args fs tokens sysargv with
  | .error e => .error e
  | .ok (.run o) =>
    match validateRun fs o with
    | .error e => .error e
    | .ok (o2, ws) => .ok (.run o2, ws)
  | .ok (.info o) => .ok (.info o, [])

/-! Helper lemmas about the embedding, shared by the claim theorems. -/

/-- Appending strings appends their character data. -/
theorem strDataAppend (a b : String) : (a ++ b).data = a.data ++ b.data := by
  cases a
  cases b
  rfl

/-- Appending strings adds their lengths. -/
theorem strLenAppend (a b : String) : (a ++ b).length = a.length + b.length := by
  show (a ++ b).data.length = a.data.length + b.data.length
  rw [strDataAppend, List.length_append]

/-- Joining any folder with the relative name log.param never yields the
empty string. -/
theorem osPathJoin_ne_empty (a : String) : osPathJoin a "log.param" ≠ "" := by
  intro he
  have hl := congrArg String.length he
  unfold osPathJoin at hl
  have h0 : headIsSlash "log.param" = false := rfl
  rw [h0] at hl
  simp only [Bool.false_eq_true, if_false] at hl
  by_cases ha : a = ""
  · rw [if_pos ha] at hl
    exact absurd hl (by decide)
  · rw [if_neg ha] at hl
    by_cases hs : lastIsSlash a = true
    · rw [if_pos hs] at hl
      rw [strLenAppend] at hl
      rw [show ("log.param" : String).length = 9 from rfl,
        show ("" : String).length = 0 from rfl] at hl
      omega
    · rw [if_neg hs] at hl
      rw [strLenAppend, strLenAppend] at hl
      rw [show ("log.param" : String).length = 9 from rfl,
        show ("/" : String).length = 1 from rfl,
        show ("" : String).length = 0 from rfl] at hl
      omega

/-- Unfolding membership over a cons cell when the membership is false. -/
theorem strIn_cons_false {x y : String} {l : List String}
    (h : strIn x (y :: l) = false) : x ≠ y ∧ strIn x l = false := by
  simp only [strIn] at h
  split at h
  · exact absurd h (by simp)
  · exact ⟨by assumption, h⟩

/-- dropWhile cannot introduce a member that the full list lacks. -/
theorem strIn_dropWhile_false (p : String → Bool) (x : String) :
    ∀ l : List String, strIn x l = false → strIn x (l.dropWhile p) = false := by
  intro l
  induction l with
  | nil => intro h; simpa using h
  | cons a as ih =>
    intro h
    obtain ⟨hxa, h2⟩ := strIn_cons_false h
    rw [List.dropWhile_cons]
    split
    · exact ih h2
    · simp only [strIn, if_neg hxa]
      exact h2

/-- Dropping the leading stretch of non-option tokens does not change
membership of an option-shaped token. -/
theorem strIn_dropWhile_opt {x : String} (hx : looksLikeOption x = true) :
    ∀ l : List String,
      strIn x (l.dropWhile (fun y => !looksLikeOption y)) = strIn x l := by
  intro l
  induction l with
  | nil => rfl
  | cons a as ih =>
    cases hpa : looksLikeOption a with
    | false =>
      have hxa : x ≠ a := by
        intro he
        rw [he] at hx
        rw [hx] at hpa
        exact Bool.noConfusion hpa
      have hd : List.dropWhile (fun y => !looksLikeOption y) (a :: as) =
          List.dropWhile (fun y => !looksLikeOption y) as := by
        simp [List.dropWhile_cons, hpa]
      rw [hd, ih]
      simp only [strIn, if_neg hxa]
    | true =>
      have hd : List.dropWhile (fun y => !looksLikeOption y) (a :: as) = a :: as := by
        simp [List.dropWhile_cons, hpa]
      rw [hd]

/-- An ok result of existing_file names a path satisfying the isfile check. -/
theorem existing_file_ok {fs : FileSystem} {v p : String}
    (h : existing_file fs v = .ok p) : fs.isfile p := by
  unfold existing_file at h
  split at h
  · injection h with h2
    subst h2
    assumption
  · exact Except.noConfusion h

/-- Only the literal flag name -N dispatches to the nsteps kind. -/
theorem runFlagKind_nsteps {t : String} (h : runFlagKind t = .nsteps) : t = "-N" := by
  unfold runFlagKind at h
  split at h
  all_goals
    first
    | rfl
    | exact RunFlagKind.noConfusion h

/-- A single run flag never changes the subparser_name dest. -/
theorem applyRunFlag_subparser {fs : FileSystem} {t v : String} {o o2 : RunOpts}
    (h : applyRunFlag fs t v o = .ok o2) : o2.subparser_name = o.subparser_name := by
  unfold applyRunFlag at h
  repeat' split at h
  all_goals
    first
    | exact Except.noConfusion h
    | (injection h with h2; subst h2; rfl)

/-- A single run flag other than -N never changes the N dest. -/
theorem applyRunFlag_N {fs : FileSystem} {t v : String} {o o2 : RunOpts}
    (h : applyRunFlag fs t v o = .ok o2) (hne : t ≠ "-N") : o2.N = o.N := by
  unfold applyRunFlag at h
  repeat' split at h
  all_goals
    first
    | exact Except.noConfusion h
    | (injection h with h2; subst h2; rfl)
    | exact absurd (runFlagKind_nsteps (by assumption)) hne

/-- A single run flag only ever sets the param dest to a path that passed
the existing_file coercion. -/
theorem applyRunFlag_param {fs : FileSystem} {t v : String} {o o2 : RunOpts}
    (h : applyRunFlag fs t v o = .ok o2) :
    ∀ p, o2.param = some p → o.param = some p ∨ fs.isfile p := by
  intro p hp
  unfold applyRunFlag at h
  repeat' split at h
  all_goals
    first
    | exact Except.noConfusion h
    | (injection h with h2; subst h2; exact Or.inl hp)
    | (injection h with h2; subst h2; cases hp; exact Or.inr (existing_file_ok (by assumption)))

/-- Structural invariant of the run token loop: the subparser_name dest is
preserved; when -N does not occur among the tokens the N dest is preserved;
and the param dest is only ever set to a path that passed the existing_file
coercion. -/
theorem runAux_inv (fs : FileSystem) :
    ∀ (fuel : Nat) (ts : List String) (o o2 : RunOpts),
      runAux fs fuel ts o = .ok o2 →
      o2.subparser_name = o.subparser_name ∧
        (strIn "-N" ts = false → o2.N = o.N) ∧
        (∀ p, o2.param = some p → o.param = some p ∨ fs.isfile p) := by
  intro fuel
  induction fuel with
  | zero =>
    intro ts o o2 h
    cases ts with
    | nil =>
      simp only [runAux, Except.ok.injEq] at h
      subst h
      exact ⟨rfl, fun _ => rfl, fun p hp => Or.inl hp⟩
    | cons t ts =>
      simp only [runAux] at h
      exact Except.noConfusion h
  | succ n ih =>
    intro ts o o2 h
    cases ts with
    | nil =>
      simp only [runAux, Except.ok.injEq] at h
      subst h
      exact ⟨rfl, fun _ => rfl, fun p hp => Or.inl hp⟩
    | cons t ts =>
      simp only [runAux] at h
      split at h
      · -- the --silent flag
        obtain ⟨hA, hB, hC⟩ := ih ts _ o2 h
        exact ⟨hA, fun hts => hB (strIn_cons_false hts).2, hC⟩
      · split at h
        · -- the --Der-param-list flag
          split at h
          · exact Except.noConfusion h
          · obtain ⟨hA, hB, hC⟩ := ih _ _ o2 h
            exact ⟨hA, fun hts =>
              hB (strIn_dropWhile_false _ _ _ (strIn_cons_false hts).2), hC⟩
        · split at h
          · -- the --IS-starting-folder flag
            split at h
            · exact Except.noConfusion h
            · obtain ⟨hA, hB, hC⟩ := ih _ _ o2 h
              exact ⟨hA, fun hts =>
                hB (strIn_dropWhile_false _ _ _ (strIn_cons_false hts).2), hC⟩
          · split at h
            · -- a single-value flag
              split at h
              · exact Except.noConfusion h
              · split at h
                · exact Except.noConfusion h
                · split at h
                  · exact Except.noConfusion h
                  · rename_i o3 happ
                    obtain ⟨hA, hB, hC⟩ := ih _ o3 o2 h
                    refine ⟨hA.trans (applyRunFlag_subparser happ), ?_, ?_⟩
                    · intro hts
                      obtain ⟨hne, hts2⟩ := strIn_cons_false hts
                      obtain ⟨_, hts3⟩ := strIn_cons_false hts2
                      exact (hB hts3).trans (applyRunFlag_N happ (Ne.symm hne))
                    · intro p hp
                      rcases hC p hp with hl | hr
                      · exact applyRunFlag_param happ p hl
                      · exact Or.inr hr
            · -- unrecognized token
              exact Except.noConfusion h

/-- An option-shaped token is never equal to a token that failed the
option shape test. -/
theorem ne_of_not_opt {x v : String} (hx : looksLikeOption x = true)
    (hv : ¬ looksLikeOption v = true) : x ≠ v :=
  fun he => hv (he ▸ hx)

/-- Only the literal token --no-mean dispatches to the noMean kind. -/
theorem infoBoolKind_noMean {t : String} (h : infoBoolKind t = .noMean) :
    t = "--no-mean" := by
  unfold infoBoolKind at h
  split at h
  all_goals
    first
    | rfl
    | exact InfoBoolKind.noConfusion h

/-- Only the literal token --noplot dispatches to the noPlot kind. -/
theorem infoBoolKind_noPlot {t : String} (h : infoBoolKind t = .noPlot) :
    t = "--noplot" := by
  unfold infoBoolKind at h
  split at h
  all_goals
    first
    | rfl
    | exact InfoBoolKind.noConfusion h

/-- Only the literal token --noplot-2d dispatches to the noPlot2d kind. -/
theorem infoBoolKind_noPlot2d {t : String} (h : infoBoolKind t = .noPlot2d) :
    t = "--noplot-2d" := by
  unfold infoBoolKind at h
  split at h
  all_goals
    first
    | rfl
    | exact InfoBoolKind.noConfusion h

/-- Only the literal token --contours-only dispatches to the contoursOnly
kind. -/
theorem infoBoolKind_contoursOnly {t : String} (h : infoBoolKind t = .contoursOnly) :
    t = "--contours-only" := by
  unfold infoBoolKind at h
  split at h
  all_goals
    first
    | rfl
    | exact InfoBoolKind.noConfusion h

/-- Only the literal token --all dispatches to the allFlag kind. -/
theorem infoBoolKind_allFlag {t : String} (h : infoBoolKind t = .allFlag) :
    t = "--all" := by
  unfold infoBoolKind at h
  split at h
  all_goals
    first
    | rfl
    | exact InfoBoolKind.noConfusion h

/-- A token that dispatches to no plain info flag differs from the three
store_false flag names. -/
theorem infoBoolKind_notBool {t : String} (h : infoBoolKind t = .notBool) :
    t ≠ "--no-mean" ∧ t ≠ "--noplot" ∧ t ≠ "--noplot-2d" := by
  refine ⟨?_, ?_, ?_⟩ <;> intro he <;> subst he <;> exact InfoBoolKind.noConfusion h

/-- A single info value flag never changes the subparser_name,
mean_likelihood, plot or plot_2d dests. -/
theorem applyInfoFlag_inv {t v : String} {o o2 : InfoOpts}
    (h : applyInfoFlag t v o = .ok o2) :
    o2.subparser_name = o.subparser_name ∧
      o2.mean_likelihood = o.mean_likelihood ∧
      o2.plot = o.plot ∧ o2.plot_2d = o.plot_2d := by
  unfold applyInfoFlag at h
  repeat' split at h
  all_goals
    first
    | exact Except.noConfusion h
    | (injection h with h2; subst h2; exact ⟨rfl, rfl, rfl, rfl⟩)

/-- Structural invariant of the info token loop: the subparser_name dest is
preserved, and each of the three store_false dests ends up false exactly
when it started false or its flag occurs among the tokens. -/
theorem infoAux_inv :
    ∀ (fuel : Nat) (ts : List String) (o : InfoOpts) (b : Bool) (o2 : InfoOpts),
      infoAux fuel ts o b = .ok o2 →
      o2.subparser_name = o.subparser_name ∧
        o2.mean_likelihood = (o.mean_likelihood && !(strIn "--no-mean" ts)) ∧
        o2.plot = (o.plot && !(strIn "--noplot" ts)) ∧
        o2.plot_2d = (o.plot_2d && !(strIn "--noplot-2d" ts)) := by
  intro fuel
  induction fuel with
  | zero =>
    intro ts o b o2 h
    cases ts with
    | nil =>
      simp only [infoAux] at h
      split at h
      · injection h with h2
        subst h2
        exact ⟨rfl, by simp [strIn], by simp [strIn], by simp [strIn]⟩
      · exact Except.noConfusion h
    | cons t ts =>
      simp only [infoAux] at h
      exact Except.noConfusion h
  | succ n ih =>
    intro ts o b o2 h
    cases ts with
    | nil =>
      simp only [infoAux] at h
      split at h
      · injection h with h2
        subst h2
        exact ⟨rfl, by simp [strIn], by simp [strIn], by simp [strIn]⟩
      · exact Except.noConfusion h
    | cons t ts =>
      simp only [infoAux] at h
      split at h
      · -- the --no-mean flag
        rename_i hk
        have ht := infoBoolKind_noMean hk
        subst ht
        obtain ⟨hA, hM, hP, hQ⟩ := ih ts _ b o2 h
        refine ⟨hA, ?_, ?_, ?_⟩
        · rw [hM]; simp [strIn]
        · rw [hP]; simp [strIn]
        · rw [hQ]; simp [strIn]
      · -- the --noplot flag
        rename_i hk
        have ht := infoBoolKind_noPlot hk
        subst ht
        obtain ⟨hA, hM, hP, hQ⟩ := ih ts _ b o2 h
        refine ⟨hA, ?_, ?_, ?_⟩
        · rw [hM]; simp [strIn]
        · rw [hP]; simp [strIn]
        · rw [hQ]; simp [strIn]
      · -- the --noplot-2d flag
        rename_i hk
        have ht := infoBoolKind_noPlot2d hk
        subst ht
        obtain ⟨hA, hM, hP, hQ⟩ := ih ts _ b o2 h
        refine ⟨hA, ?_, ?_, ?_⟩
        · rw [hM]; simp [strIn]
        · rw [hP]; simp [strIn]
        · rw [hQ]; simp [strIn]
      · -- the --contours-only flag
        rename_i hk
        have ht := infoBoolKind_contoursOnly hk
        subst ht
        obtain ⟨hA, hM, hP, hQ⟩ := ih ts _ b o2 h
        refine ⟨hA, ?_, ?_, ?_⟩
        · rw [hM]; simp [strIn]
        · rw [hP]; simp [strIn]
        · rw [hQ]; simp [strIn]
      · -- the --all flag
        rename_i hk
        have ht := infoBoolKind_allFlag hk
        subst ht
        obtain ⟨hA, hM, hP, hQ⟩ := ih ts _ b o2 h
        refine ⟨hA, ?_, ?_, ?_⟩
        · rw [hM]; simp [strIn]
        · rw [hP]; simp [strIn]
        · rw [hQ]; simp [strIn]
      · -- not a plain flag
        rename_i hk
        obtain ⟨hn1, hn2, hn3⟩ := infoBoolKind_notBool hk
        split at h
        · -- a single-value flag
          split at h
          · exact Except.noConfusion h
          · rename_i v ts2
            split at h
            · exact Except.noConfusion h
            · rename_i hvopt
              split at h
              · exact Except.noConfusion h
              · rename_i o3 happ
                obtain ⟨hA, hM, hP, hQ⟩ := ih ts2 o3 b o2 h
                obtain ⟨hA2, hM2, hP2, hQ2⟩ := applyInfoFlag_inv happ
                have e1 : strIn "--no-mean" (t :: v :: ts2) = strIn "--no-mean" ts2 := by
                  simp only [strIn, if_neg (Ne.symm hn1),
                    if_neg (@ne_of_not_opt "--no-mean" v (by decide) hvopt)]
                have e2 : strIn "--noplot" (t :: v :: ts2) = strIn "--noplot" ts2 := by
                  simp only [strIn, if_neg (Ne.symm hn2),
                    if_neg (@ne_of_not_opt "--noplot" v (by decide) hvopt)]
                have e3 : strIn "--noplot-2d" (t :: v :: ts2) = strIn "--noplot-2d" ts2 := by
                  simp only [strIn, if_neg (Ne.symm hn3),
                    if_neg (@ne_of_not_opt "--noplot-2d" v (by decide) hvopt)]
                refine ⟨hA.trans hA2, ?_, ?_, ?_⟩
                · rw [hM, hM2, e1]
                · rw [hP, hP2, e2]
                · rw [hQ, hQ2, e3]
        · -- not a value flag
          split at h
          · exact Except.noConfusion h
          · rename_i hlt
            split at h
            · exact Except.noConfusion h
            · -- the files chunk
              obtain ⟨hA, hM, hP, hQ⟩ := ih _ _ true o2 h
              have e1 : strIn "--no-mean" (t :: ts) = strIn "--no-mean" ts := by
                simp only [strIn, if_neg (@ne_of_not_opt "--no-mean" t (by decide) hlt)]
              have e2 : strIn "--noplot" (t :: ts) = strIn "--noplot" ts := by
                simp only [strIn, if_neg (@ne_of_not_opt "--noplot" t (by decide) hlt)]
              have e3 : strIn "--noplot-2d" (t :: ts) = strIn "--noplot-2d" ts := by
                simp only [strIn, if_neg (@ne_of_not_opt "--noplot-2d" t (by decide) hlt)]
              refine ⟨hA, ?_, ?_, ?_⟩
              · rw [hM, @strIn_dropWhile_opt "--no-mean" (by decide) ts, e1]
              · rw [hP, @strIn_dropWhile_opt "--noplot" (by decide) ts, e2]
              · rw [hQ, @strIn_dropWhile_opt "--noplot-2d" (by decide) ts, e3]

/-- A successful run validation preserves the subparser_name dest, and under
the engine invariant that any supplied param passed existing_file, it leaves
a non-empty param path. -/
theorem validateRun_inv {fs : FileSystem} {o o2 : RunOpts} {ws : List String}
    (h : validateRun fs o = .ok (o2, ws))
    (hp : ∀ p, o.param = some p → fs.isfile p) :
    o2.subparser_name = o.subparser_name ∧ ∃ p, o2.param = some p ∧ p ≠ "" := by
  unfold validateRun at h
  split at h
  · -- restart branch
    injection h with h2
    injection h2 with h3 h4
    subst h3
    exact ⟨rfl, ⟨osPathJoin _ "log.param", rfl, osPathJoin_ne_empty _⟩⟩
  · split at h
    · exact Except.noConfusion h
    · split at h
      · split at h
        · split at h
          · -- existing log.param, param supplied
            injection h with h2
            injection h2 with h3 h4
            subst h3
            exact ⟨rfl, ⟨osPathJoin _ "log.param", rfl, osPathJoin_ne_empty _⟩⟩
          · -- existing log.param, no param supplied
            injection h with h2
            injection h2 with h3 h4
            subst h3
            exact ⟨rfl, ⟨osPathJoin _ "log.param", rfl, osPathJoin_ne_empty _⟩⟩
        · split at h
          · exact Except.noConfusion h
          · rename_i pp hpp
            injection h with h2
            injection h2 with h3 h4
            subst h3
            exact ⟨rfl, ⟨pp, hpp, (hp pp hpp).1⟩⟩
      · split at h
        · exact Except.noConfusion h
        · rename_i pp hpp
          injection h with h2
          injection h2 with h3 h4
          subst h3
          exact ⟨rfl, ⟨pp, hpp, (hp pp hpp).1⟩⟩

/-! Claim theorems. -/

/-- C1 (counterexample): the claim says the rewrite inserts run exactly when
the first token begins with a hyphen; but for the first token foo-bar, which
does not begin with a hyphen yet contains one, the code inserts run. -/
theorem C1_counterexample :
    set_default_subparser "run" ["foo-bar"] [] = .ok ["run", "foo-bar"] ∧
      "foo-bar".data.head? ≠ some '-' := by
  decide

/-- C1 (amended): for a first token outside the reserved set, run is
inserted at position 0 exactly when the first token contains a hyphen
anywhere (not only when it begins with one); a first token -info is
rewritten in place to info; the tokens -h, --help, --version leave the
list unchanged. -/
theorem C1_default_subparser_rewrite (a0 : String) (rest sysargv : List String) :
    (a0 ∉ (["-h", "--help", "--version", "-info"] : List String) →
      set_default_subparser "run" (a0 :: rest) sysargv =
        .ok (if a0.data.contains '-' then "run" :: a0 :: rest else a0 :: rest)) ∧
      set_default_subparser "run" ("-info" :: rest) sysargv = .ok ("info" :: rest) ∧
      ((a0 = "-h" ∨ a0 = "--help" ∨ a0 = "--version") →
        set_default_subparser "run" (a0 :: rest) sysargv = .ok (a0 :: rest)) := by
  refine ⟨?_, ?_, ?_⟩
  · intro hmem
    have hne : ¬(a0 = "-h" ∨ a0 = "--help" ∨ a0 = "--version" ∨ a0 = "-info") := by
      intro hc
      apply hmem
      rcases hc with h | h | h | h <;> simp [h]
    show (if a0 = "-h" ∨ a0 = "--help" ∨ a0 = "--version" ∨ a0 = "-info" then
            if a0 = "-info" then Except.ok ("info" :: rest) else Except.ok (a0 :: rest)
          else if a0.data.contains '-' then Except.ok ("run" :: a0 :: rest)
          else Except.ok (a0 :: rest)) = _
    rw [if_neg hne]
    by_cases hc : a0.data.contains '-' = true
    · rw [if_pos hc, if_pos hc]
    · rw [if_neg hc, if_neg hc]
  · rfl
  · intro hc
    rcases hc with rfl | rfl | rfl <;> rfl

/-- C1 (witness): the amended rewrite evaluated at the concrete token lists
[-N, 10], [-info, x] and [--help]. -/
theorem C1_witness :
    set_default_subparser "run" ["-N", "10"] [] = .ok ["run", "-N", "10"] ∧
      set_default_subparser "run" ["-info", "x"] [] = .ok ["info", "x"] ∧
      set_default_subparser "run" ["--help"] [] = .ok ["--help"] := by
  refine ⟨?_, (C1_default_subparser_rewrite "x" ["x"] []).2.1, ?_⟩
  · exact ((C1_default_subparser_rewrite "-N" ["10"] []).1 (by decide)).trans (by decide)
  · exact (C1_default_subparser_rewrite "--help" [] []).2.2 (Or.inr (Or.inl rfl))

/-- C2 (counterexample): the claim says the override warning is emitted iff
the supplied parameter file differs from the log.param path; here the
supplied -p equals the resolved path out/log.param, yet the warning is
emitted. -/
theorem C2_counterexample :
    parse ⟨["out/log.param"], ["out"]⟩ "run -o out -p out/log.param" [] =
      .ok (.run { subparser_name := "run", folder := some "out",
                  param := some "out/log.param" },
        [appendingMsg "out/log.param"]) ∧
      osPathJoin "out" "log.param" = "out/log.param" := by
  decide

/-- C2 (amended): for a run invocation without restart whose output folder
exists and holds a log.param entry, the resolved param is forced to
folder/log.param regardless of any -p value, and the warning is emitted iff
a parameter file was supplied at all (even one equal to the log.param
path). -/
theorem C2_log_param_override (fs : FileSystem) (o : RunOpts) (f : String)
    (h1 : o.restart = none) (h2 : o.folder = some f)
    (h3 : fs.isdir f) (h4 : fs.isfile (osPathJoin f "log.param")) :
    validateRun fs o =
      .ok ({ o with param := some (osPathJoin f "log.param") },
        match o.param with
        | some old => [appendingMsg old]
        | none => []) := by
  have hp : fs.pexists (osPathJoin f "log.param") := Or.inl h4
  unfold validateRun
  simp only [h1, h2]
  rw [if_pos h3, if_pos hp]
  cases ho : o.param with
  | some old => rfl
  | none => rfl

/-- C2 (witness): the amended override evaluated on a concrete folder w
holding w/log.param with a different supplied parameter file. -/
theorem C2_witness :
    validateRun ⟨["w/log.param"], ["w"]⟩
        { subparser_name := "run", folder := some "w", param := some "w/old.param" } =
      .ok ({ subparser_name := "run", folder := some "w", param := some "w/log.param" },
        [appendingMsg "w/old.param"]) := by
  exact (C2_log_param_override ⟨["w/log.param"], ["w"]⟩
      { subparser_name := "run", folder := some "w", param := some "w/old.param" } "w"
      rfl rfl (by decide) (by decide)).trans (by decide)

/-- C3: a run invocation with a restart chain file unconditionally resolves
the folder to the chain file path with its last separator component
removed, forces param to folder/log.param, and emits the restart warning,
overriding any supplied -o and -p values. -/
theorem C3_restart_override (fs : FileSystem) (o : RunOpts) (r : String)
    (h : o.restart = some r) :
    validateRun fs o =
      .ok ({ o with
              folder := some (sepJoin (pySplitSep r).dropLast),
              param := some (osPathJoin (sepJoin (pySplitSep r).dropLast) "log.param") },
        [restartWarningMsg r]) := by
  unfold validateRun
  simp only [h]

/-- C3 (witness): restart resolution evaluated on the concrete chain file
chains/a/c.txt, overriding the supplied folder and parameter file. -/
theorem C3_witness :
    validateRun ⟨["chains/a/c.txt"], []⟩
        { subparser_name := "run", restart := some "chains/a/c.txt",
          folder := some "elsewhere", param := some "other.par" } =
      .ok ({ subparser_name := "run", restart := some "chains/a/c.txt",
             folder := some "chains/a", param := some "chains/a/log.param" },
        [restartWarningMsg "chains/a/c.txt"]) := by
  exact (C3_restart_override ⟨["chains/a/c.txt"], []⟩
      { subparser_name := "run", restart := some "chains/a/c.txt",
        folder := some "elsewhere", param := some "other.par" }
      "chains/a/c.txt" rfl).trans (by decide)

/-- C4: failed type coercions always raise ArgumentTypeError: positive_int
on any string that is not a positive decimal integer, existing_file on any
path that is not a file, and the run token loop when fed such values for
-N or for the file flags -p, --param, -c, --covmat, -r, -b, --bestfit. -/
theorem C4_type_coercion_failures :
    (∀ s : String, (∀ n : Int, pyInt s = some n → n ≤ 0) →
        positive_int s = .error (.argumentTypeError positiveIntMsg)) ∧
      (∀ (fs : FileSystem) (f : String), ¬ fs.isfile f →
        existing_file fs f = .error (.argumentTypeError (existingFileMsg f))) ∧
      (∀ (fs : FileSystem) (v : String) (rest : List String) (o : RunOpts),
        looksLikeOption v = false → (∀ n : Int, pyInt v = some n → n ≤ 0) →
        parseRunTokens fs ("-N" :: v :: rest) o =
          .error (.argumentTypeError positiveIntMsg)) ∧
      (∀ (fs : FileSystem) (flag v : String) (rest : List String) (o : RunOpts),
        (flag = "-p" ∨ flag = "--param" ∨ flag = "-c" ∨ flag = "--covmat" ∨
          flag = "-r" ∨ flag = "-b" ∨ flag = "--bestfit") →
        looksLikeOption v = false → ¬ fs.isfile v →
        parseRunTokens fs (flag :: v :: rest) o =
          .error (.argumentTypeError (existingFileMsg v))) := by
  have hpos : ∀ s : String, (∀ n : Int, pyInt s = some n → n ≤ 0) →
      positive_int s = .error (.argumentTypeError positiveIntMsg) := by
    intro s hs
    unfold positive_int
    cases hp : pyInt s with
    | none => rfl
    | some v =>
      have hv := hs v hp
      simp [hv]
  have hex : ∀ (fs : FileSystem) (f : String), ¬ fs.isfile f →
      existing_file fs f = .error (.argumentTypeError (existingFileMsg f)) := by
    intro fs f hf
    unfold existing_file
    rw [if_neg hf]
  refine ⟨hpos, hex, ?_, ?_⟩
  · intro fs v rest o hv hval
    have hv2 : ¬ looksLikeOption v = true := by simp [hv]
    have he := hpos v hval
    unfold parseRunTokens
    simp only [List.length_cons]
    simp only [runAux, applyRunFlag, runFlagKind]
    simp [hv2, he]
  · intro fs flag v rest o hflag hv hfile
    have hv2 : ¬ looksLikeOption v = true := by simp [hv]
    have he := hex fs v hfile
    unfold parseRunTokens
    simp only [List.length_cons]
    rcases hflag with rfl | rfl | rfl | rfl | rfl | rfl | rfl <;>
      · simp only [runAux, applyRunFlag, runFlagKind]
        simp [hv2, he]

/-- C4 (witness): the coercion failures evaluated on the concrete inputs 0,
-5, a missing file, and full run token lists carrying them. -/
theorem C4_witness :
    positive_int "0" = .error (.argumentTypeError positiveIntMsg) ∧
      existing_file ⟨[], []⟩ "nofile.txt" =
        .error (.argumentTypeError (existingFileMsg "nofile.txt")) ∧
      parseRunTokens ⟨[], []⟩ ["-N", "-5"] { subparser_name := "run" } =
        .error (.argumentTypeError positiveIntMsg) ∧
      parseRunTokens ⟨[], []⟩ ["-p", "ghost.param"] { subparser_name := "run" } =
        .error (.argumentTypeError (existingFileMsg "ghost.param")) := by
  refine ⟨C4_type_coercion_failures.1 "0" ?_, C4_type_coercion_failures.2.1 ⟨[], []⟩
      "nofile.txt" (by decide), C4_type_coercion_failures.2.2.1 ⟨[], []⟩ "-5" []
      { subparser_name := "run" } (by decide) ?_,
    C4_type_coercion_failures.2.2.2 ⟨[], []⟩ "-p" "ghost.param" []
      { subparser_name := "run" } (Or.inl rfl) (by decide) (by decide)⟩
  · intro n hn
    rw [show pyInt "0" = some 0 from rfl] at hn
    injection hn with hn2
    omega
  · intro n hn
    rw [show pyInt "-5" = some (-5) from rfl] at hn
    injection hn with hn2
    omega

/-- C5: a run invocation with neither a restart file nor an output folder
fails with the ConfigurationError asking for an output folder. -/
theorem C5_missing_output_folder (fs : FileSystem) (o : RunOpts)
    (h1 : o.restart = none) (h2 : o.folder = none) :
    validateRun fs o = .error (.configurationError dirtyFolderMsg) := by
  unfold validateRun
  simp only [h1, h2]

/-- C5 (witness): the missing-folder failure evaluated on the default run
options. -/
theorem C5_witness :
    validateRun ⟨[], []⟩ { subparser_name := "run" } =
      .error (.configurationError dirtyFolderMsg) :=
  C5_missing_output_folder ⟨[], []⟩ { subparser_name := "run" } rfl rfl

/-- C6: a run invocation without restart, with an output folder but no
parameter file, fails with a ConfigurationError when the folder has no
entry on disk, or is a directory holding no log.param entry. -/
theorem C6_missing_param (fs : FileSystem) (o : RunOpts) (f : String)
    (h1 : o.restart = none) (h2 : o.folder = some f) (h3 : o.param = none)
    (h4 : ¬ fs.pexists f ∨ (fs.isdir f ∧ ¬ fs.pexists (osPathJoin f "log.param"))) :
    validateRun fs o = .error (.configurationError emptyFolderMsg) ∨
      validateRun fs o = .error (.configurationError nonExistentFolderMsg) := by
  unfold validateRun
  simp only [h1, h2]
  rcases h4 with hne | ⟨hdir, hnlp⟩
  · have hnd : ¬ fs.isdir f := fun hd => hne (Or.inr hd)
    rw [if_neg hnd]
    simp only [h3]
    exact Or.inr trivial
  · rw [if_pos hdir, if_neg hnlp]
    simp only [h3]
    exact Or.inl trivial

/-- C6 (witness): the missing-parameter-file failure evaluated on a
concrete existing directory d that holds no log.param. -/
theorem C6_witness :
    validateRun ⟨[], ["d"]⟩ { subparser_name := "run", folder := some "d" } =
        .error (.configurationError emptyFolderMsg) ∨
      validateRun ⟨[], ["d"]⟩ { subparser_name := "run", folder := some "d" } =
        .error (.configurationError nonExistentFolderMsg) :=
  C6_missing_param ⟨[], ["d"]⟩ { subparser_name := "run", folder := some "d" } "d"
    rfl rfl rfl (Or.inr ⟨by decide, by decide⟩)

/-- C7 (counterexample): the claim says omitting -N makes a run command
line fail; but this run command line omitting -N parses successfully, with
the N dest left at none. -/
theorem C7_counterexample :
    parse ⟨["t.param"], ["out0"]⟩ "-o out0 -p t.param" [] =
      .ok (.run { subparser_name := "run", N := none, folder := some "out0",
                  param := some "t.param" }, []) := by
  decide

/-- C7 (amended): -N is optional in the run subparser: any run token list
that does not mention -N and parses successfully leaves the N dest at its
default none; the parser itself never requires the flag. -/
theorem C7_N_optional (fs : FileSystem) (ts : List String) (o2 : RunOpts)
    (h1 : strIn "-N" ts = false)
    (h2 : parseRunTokens fs ts { subparser_name := "run" } = .ok o2) :
    o2.N = none := by
  obtain ⟨_, hB, _⟩ := runAux_inv fs ts.length ts _ o2 h2
  exact hB h1

/-- C7 (witness): the amended optionality evaluated on the concrete token
list [-o, out1]. -/
theorem C7_witness :
    ({ subparser_name := "run", folder := some "out1" } : RunOpts).N = none :=
  C7_N_optional ⟨[], []⟩ ["-o", "out1"]
    { subparser_name := "run", folder := some "out1" } (by decide) (by decide)

/-- C8 (counterexample): the claim says a successful run parse leaves a
non-empty folder; but restarting from a chain file with no path separator
succeeds with the folder resolved to the empty string. -/
theorem C8_counterexample :
    parse ⟨["c.txt"], []⟩ "-r c.txt" [] =
      .ok (.run { subparser_name := "run", restart := some "c.txt",
                  folder := some "", param := some "log.param" },
        [restartWarningMsg "c.txt"]) := by
  decide

/-- C8 (amended): every successful parse resolves subparser_name to run or
info, and a successful run parse leaves a non-empty param path; the folder,
however, can be the empty string. -/
theorem C8_success_invariant (fs : FileSystem) (cmd : String) (sysargv : List String)
    (o : Options) (ws : List String)
    (h : parse fs cmd sysargv = .ok (o, ws)) :
    (o.subparserName = "run" ∨ o.subparserName = "info") ∧
      (∀ ro : RunOpts, o = .run ro → ∃ p, ro.param = some p ∧ p ≠ "") := by
  simp only [parse] at h
  split at h
  · exact Except.noConfusion h
  · -- the run side
    rename_i o1 hs
    split at h
    · exact Except.noConfusion h
    · rename_i o2 ws2 hv
      injection h with h2
      injection h2 with h3 h4
      subst h3
      unfold safe_parse_args at hs
      split at hs
      · exact Except.noConfusion hs
      · rename_i args2 hset
        cases args2 with
        | nil =>
          simp only [parseTokens] at hs
          exact Except.noConfusion hs
        | cons t ts =>
          simp only [parseTokens] at hs
          split at hs
          · exact Except.noConfusion hs
          · split at hs
            · -- dispatched to run
              split at hs
              · exact Except.noConfusion hs
              · rename_i ro hrun
                injection hs with h5
                injection h5 with h6
                rw [← h6] at hv
                obtain ⟨hA, _, hC⟩ := runAux_inv fs ts.length ts _ ro hrun
                have hp : ∀ p, ro.param = some p → fs.isfile p := by
                  intro p hpp
                  rcases hC p hpp with hl | hr
                  · exact absurd hl (by simp)
                  · exact hr
                obtain ⟨hVA, hVP⟩ := validateRun_inv hv hp
                constructor
                · left
                  show o2.subparser_name = "run"
                  rw [hVA, hA]
                · intro ro2 hro
                  injection hro with h7
                  subst h7
                  exact hVP
            · split at hs
              · -- dispatched to info: impossible on the run side
                split at hs
                · exact Except.noConfusion hs
                · rename_i io hinfo
                  injection hs with h5
                  exact Options.noConfusion h5
              · exact Except.noConfusion hs
  · -- the info side
    rename_i oi hs
    injection h with h2
    injection h2 with h3 h4
    subst h3
    refine ⟨?_, fun ro hro => Options.noConfusion hro⟩
    right
    show oi.subparser_name = "info"
    unfold safe_parse_args at hs
    split at hs
    · exact Except.noConfusion hs
    · rename_i args2 hset
      cases args2 with
      | nil =>
        simp only [parseTokens] at hs
        exact Except.noConfusion hs
      | cons t ts =>
        simp only [parseTokens] at hs
        split at hs
        · exact Except.noConfusion hs
        · split at hs
          · split at hs
            · exact Except.noConfusion hs
            · rename_i ro hrun
              injection hs with h5
              exact Options.noConfusion h5
          · split at hs
            · split at hs
              · exact Except.noConfusion hs
              · rename_i io2 hinfo
                injection hs with h5
                injection h5 with h6
                rw [← h6]
                obtain ⟨hA, _, _, _⟩ := infoAux_inv ts.length ts _ false _ hinfo
                exact hA
            · exact Except.noConfusion hs

/-- C8 (witness): the amended invariant evaluated on a concrete successful
run parse. -/
theorem C8_witness :
    ((Options.run
          { subparser_name := "run", folder := some "d1", param := some "g.par" }).subparserName =
        "run" ∨
      (Options.run
          { subparser_name := "run", folder := some "d1", param := some "g.par" }).subparserName =
        "info") ∧
      (∀ ro : RunOpts,
        Options.run
            { subparser_name := "run", folder := some "d1", param := some "g.par" } =
          .run ro →
        ∃ p, ro.param = some p ∧ p ≠ "") :=
  C8_success_invariant ⟨["g.par"], ["d1"]⟩ "-o d1 -p g.par" [] _ [] (by decide)

/-- C9: in any successful info parse the dests mean_likelihood, plot and
plot_2d are true exactly when their disable flags --no-mean, --noplot and
--noplot-2d are absent from the tokens, and false when present. -/
theorem C9_info_disable_flags (ts : List String) (o : InfoOpts)
    (h : parseInfoTokens ts { subparser_name := "info" } false = .ok o) :
    o.mean_likelihood = !(strIn "--no-mean" ts) ∧
      o.plot = !(strIn "--noplot" ts) ∧
      o.plot_2d = !(strIn "--noplot-2d" ts) := by
  obtain ⟨_, hM, hP, hQ⟩ := infoAux_inv ts.length ts _ false o h
  exact ⟨hM.trans (by simp), hP.trans (by simp), hQ.trans (by simp)⟩

/-- C9 (witness): the toggle semantics evaluated on the concrete info token
list [chains, --no-mean, --noplot-2d]. -/
theorem C9_witness :
    ({ subparser_name := "info", files := ["chains"], mean_likelihood := false,
        plot_2d := false } : InfoOpts).mean_likelihood =
        !(strIn "--no-mean" ["chains", "--no-mean", "--noplot-2d"]) ∧
      ({ subparser_name := "info", files := ["chains"], mean_likelihood := false,
          plot_2d := false } : InfoOpts).plot =
        !(strIn "--noplot" ["chains", "--no-mean", "--noplot-2d"]) ∧
      ({ subparser_name := "info", files := ["chains"], mean_likelihood := false,
          plot_2d := false } : InfoOpts).plot_2d =
        !(strIn "--noplot-2d" ["chains", "--no-mean", "--noplot-2d"]) :=
  C9_info_disable_flags ["chains", "--no-mean", "--noplot-2d"]
    { subparser_name := "info", files := ["chains"], mean_likelihood := false,
      plot_2d := false } (by decide)

/-- C10: with an empty custom command and an empty process argument list,
parse reaches set_default_subparser, which indexes element 0 of the empty
list and fails with IndexError, not with ConfigurationError and not with
parsed options. -/
theorem C10_empty_argv (fs : FileSystem) : parse fs "" [] = .error .indexError := rfl

/-- C10 (witness): the IndexError evaluated at a concrete empty filesystem. -/
theorem C10_witness : parse ⟨[], []⟩ "" [] = .error .indexError :=
  C10_empty_argv ⟨[], []⟩

end MontePython
